import Mathlib

/-!
# Match viewer (`script.js`): rendering and selection contract

A shallow embedding of the browser script `script.js`.

* Section 1 embeds the JavaScript Number operations the script calls
  (`===`, truthiness, binary `-`, `Math.round`, `Number.prototype.toFixed`,
  and the string conversion of template literals).  A finite Number is kept
  as the exact value `mant * 2 ^ exp`; every operation is integer arithmetic.
* Section 2 embeds the payload and the page (the `elements` table and the two
  module variables).
* Section 3 embeds the functions of the script, one definition per function.
* Section 4 fixes the concrete inputs and the vocabulary of the properties.
* Section 5 states and proves the properties.

## Boundaries of the embedding

* A `fetch` is represented by its outcome (`FetchResult`), an input of the
  function that awaits it; the request is recorded in the log as data, not as
  an encoded URL.
* Payload fields are typed as in the data model; `Option` marks the
  properties whose absence the script tests or may trip over.
* A text slot holds the string assigned to `textContent`, a bar the string
  assigned to `style.width`, an image slot the string assigned to `src`, and
  a table row the strings interpolated into its markup: what the browser does
  with these strings afterwards (markup parsing, style validation) is outside.
* Listeners (tab switching, row clicks) are not part of the page state.
-/

namespace MatchViewer

/-! ## 1. JavaScript Numbers -/

/-- A JavaScript Number.  `fin mant exp` is the finite value
`mant * 2 ^ exp`; every IEEE-754 binary64 value has this form (the two zeros
are identified: no operation used by the script tells them apart). -/
inductive JSNum where
  | nan
  | inf (neg : Bool)
  | fin (mant : Int) (exp : Int)
deriving DecidableEq, Repr

namespace JSNum

/-- The Number of an integer literal (exact for `|n| ≤ 2 ^ 53`). -/
def ofInt (n : Int) : JSNum := fin n 0

/-- Strict comparison with the literal zero: `x === 0`. -/
def isZero : JSNum → Bool
  | fin m _ => decide (m = 0)
  | _ => false

/-- ToBoolean on a Number: `NaN` and zero are falsy. -/
def truthy : JSNum → Bool
  | nan => false
  | inf _ => true
  | fin m _ => decide (m ≠ 0)

/-- Numeric equality of two Numbers (`NaN` equals nothing). -/
def numEq : JSNum → JSNum → Bool
  | fin m1 e1, fin m2 e2 =>
      let e := min e1 e2
      decide (m1 * 2 ^ (e1 - e).toNat = m2 * 2 ^ (e2 - e).toNat)
  | inf a, inf b => a == b
  | _, _ => false

/-- Worker of `ilog2`: halve until below two. -/
def log2Aux : Nat → Nat → Nat
  | 0, _ => 0
  | fuel + 1, n => if n < 2 then 0 else log2Aux fuel (n / 2) + 1

/-- Floor of the binary logarithm of a positive natural number. -/
def ilog2 (n : Nat) : Nat := log2Aux n n

/-- Floor of the binary logarithm of the positive fraction `p / q`. -/
def floorLog2 (p q : Nat) : Int :=
  let d : Int := (ilog2 p : Int) - (ilog2 q : Int)
  if q * 2 ^ d.toNat ≤ p * 2 ^ (-d).toNat then d else d - 1

/-- The integer nearest to `num / den`, ties to the even one. -/
def roundHalfEven (num den : Nat) : Nat :=
  let m := num / den
  let r := num % den
  if 2 * r < den then m else if den < 2 * r then m + 1 else m + m % 2

/-- The binary64 value nearest to `± p / q` (round to nearest, ties to even;
subnormals below `2 ^ (-1022)`, overflow to infinity from `2 ^ 1024`). -/
def roundDouble (neg : Bool) (p q : Nat) : JSNum :=
  if p = 0 then fin 0 0
  else
    let e : Int := max (floorLog2 p q - 52) (-1074)
    let m := roundHalfEven (p * 2 ^ (-e).toNat) (q * 2 ^ e.toNat)
    if 971 < e ∨ (e = 971 ∧ m = 2 ^ 53) then inf neg
    else fin (if neg then -(m : Int) else (m : Int)) e

/-- The Number denoted by the decimal literal `± digits * 10 ^ (-scale)`,
as `JSON.parse` reads it. -/
def ofDecimal (neg : Bool) (digits scale : Nat) : JSNum :=
  roundDouble neg digits (10 ^ scale)

/-- Binary `-` on Numbers. -/
def sub : JSNum → JSNum → JSNum
  | nan, _ => nan
  | _, nan => nan
  | inf a, inf b => if a = b then nan else inf a
  | inf a, fin _ _ => inf a
  | fin _ _, inf b => inf (!b)
  | fin m1 e1, fin m2 e2 =>
      let e := min e1 e2
      let d : Int := m1 * 2 ^ (e1 - e).toNat - m2 * 2 ^ (e2 - e).toNat
      roundDouble (decide (d < 0)) (d.natAbs * 2 ^ e.toNat) (2 ^ (-e).toNat)

/-- The builtin `Math.round`: the nearest integer, ties towards `+∞`. -/
def round : JSNum → JSNum
  | nan => nan
  | inf a => inf a
  | fin m e =>
      if 0 ≤ e then fin m e
      else fin ((2 * m + 2 ^ (-e).toNat) / (2 * 2 ^ (-e).toNat)) 0

/-- Number of decimal digits of a natural number. -/
def decLen (n : Nat) : Nat := (Nat.toDigits 10 n).length

/-- The integer `N` with `10 ^ (N - 1) ≤ p / q < 10 ^ N`, for `p / q > 0`. -/
def decExp (p q : Nat) : Int :=
  let d : Int := (decLen p : Int) - (decLen q : Int)
  if q * 10 ^ d.toNat ≤ p * 10 ^ (-d).toNat then d + 1 else d

/-- Does the decimal `s * 10 ^ t` read back as the Number `x`? -/
def roundsTo (x : JSNum) (s : Nat) (t : Int) : Bool :=
  numEq (roundDouble false (s * 10 ^ t.toNat) (10 ^ (-t).toNat)) x

/-- Search for the shortest decimal that reads back as `x = p / q > 0`:
tries `k = 1, 2, ...` significant digits; at each `k` the two decimals
around `p / q` are the candidates and the nearer one wins (the even one on a
tie).  Returns the digits value `s` and the exponent `n` of ECMA-262
Number::toString, step 5. -/
def shortestAux (x : JSNum) (p q : Nat) (N : Int) : Nat → Nat → Nat × Int
  | 0, k => ((p * 10 ^ (k - N).toNat) / (q * 10 ^ (N - k).toNat), N)
  | fuel + 1, k =>
      let t : Int := N - k
      let P := p * 10 ^ (-t).toNat
      let Q := q * 10 ^ t.toNat
      let lo := P / Q
      let hi := lo + 1
      let okLo := roundsTo x lo t
      let okHi := roundsTo x hi t
      let fix : Nat → Nat × Int := fun s => if s = 10 ^ k then (1, N + 1) else (s, N)
      if okLo && okHi then
        if 2 * P < (2 * lo + 1) * Q then fix lo
        else if (2 * lo + 1) * Q < 2 * P then fix hi
        else if lo % 2 = 0 then fix lo else fix hi
      else if okLo then fix lo
      else if okHi then fix hi
      else shortestAux x p q N fuel (k + 1)

/-- Layout of the digits `ds` with decimal exponent `n`
(ECMA-262 Number::toString, steps 6 to 10). -/
def layout (ds : List Char) (n : Int) : List Char :=
  let k := ds.length
  if (k : Int) ≤ n ∧ n ≤ 21 then ds ++ List.replicate (n.toNat - k) '0'
  else if 0 < n ∧ n ≤ 21 then ds.take n.toNat ++ '.' :: ds.drop n.toNat
  else if -6 < n ∧ n ≤ 0 then '0' :: '.' :: (List.replicate (-n).toNat '0' ++ ds)
  else
    let e : Int := n - 1
    let es := (if e < 0 then '-' else '+') :: Nat.toDigits 10 e.natAbs
    match ds with
    | [] => []
    | [d] => d :: 'e' :: es
    | d :: rest => d :: '.' :: (rest ++ 'e' :: es)

/-- Characters of the string conversion of a Number (ECMA-262
Number::toString, radix 10). -/
def toChars : JSNum → List Char
  | nan => ['N', 'a', 'N']
  | inf neg => (if neg then ['-'] else []) ++ ['I', 'n', 'f', 'i', 'n', 'i', 't', 'y']
  | fin m e =>
      if m = 0 then ['0']
      else
        let p := m.natAbs * 2 ^ e.toNat
        let q := 2 ^ (-e).toNat
        let N := decExp p q
        let r := shortestAux (fin (m.natAbs : Int) e) p q N 17 1
        (if m < 0 then ['-'] else []) ++ layout (Nat.toDigits 10 r.1) r.2

/-- String conversion of a Number, as a template literal performs it. -/
def toStr (x : JSNum) : String := String.mk (toChars x)

/-- Characters of `x.toFixed(f)` (ECMA-262 Number.prototype.toFixed; the
script calls it with `f = 1` and `f = 2` only). -/
def toFixedChars (x : JSNum) (f : Nat) : List Char :=
  match x with
  | nan => toChars nan
  | inf neg => toChars (inf neg)
  | fin m e =>
      let p := m.natAbs * 2 ^ e.toNat
      let q := 2 ^ (-e).toNat
      let sign : List Char := if m < 0 then ['-'] else []
      if 10 ^ 21 * q ≤ p then sign ++ toChars (fin (m.natAbs : Int) e)
      else
        let n := (2 * p * 10 ^ f + q) / (2 * q)
        let ds := Nat.toDigits 10 n
        if f = 0 then sign ++ ds
        else
          let padded := List.replicate (f + 1 - ds.length) '0' ++ ds
          let k := padded.length
          sign ++ (padded.take (k - f) ++ '.' :: padded.drop (k - f))

/-- The method `toFixed`. -/
def toFixed (x : JSNum) (f : Nat) : String := String.mk (toFixedChars x f)

end JSNum

/-! ## 2. Payload and page -/

/-- Conversion of a possibly absent string to a string, as a template literal
or a DOM string property performs it (`undefined` becomes "undefined"). -/
def strOrUndefined : Option String → String
  | some t => t
  | none => "undefined"

/-- Conversion of a possibly absent Number to a string in a template literal. -/
def numOrUndefined : Option JSNum → String
  | some n => n.toStr
  | none => "undefined"

/-- ToBoolean on a possibly absent string: absent and "" are falsy. -/
def truthyStr : Option String → Bool
  | some t => decide (t ≠ "")
  | none => false

/-- ToBoolean on a possibly absent Number: absent, `NaN` and zero are falsy. -/
def truthyNum : Option JSNum → Bool
  | some n => n.truthy
  | none => false

/-- A home/away pair of Numbers (`goals`, `possession`, `shots`, `xg`). -/
structure HomeAway where
  home : JSNum
  away : JSNum
deriving DecidableEq, Repr

/-- The object `match_stats.passes`. -/
structure Passes where
  home : JSNum
  away : JSNum
  home_completion : JSNum
  away_completion : JSNum
deriving DecidableEq, Repr

/-- The object `match_stats`. -/
structure MatchStats where
  possession : HomeAway
  goals : HomeAway
  shots : HomeAway
  xg : HomeAway
  passes : Passes
deriving DecidableEq, Repr

/-- The object `match_details`. -/
structure MatchDetails where
  home_team : String
  away_team : String
  home_formation : String
  away_formation : String
deriving DecidableEq, Repr

/-- One entry of `home_player_stats` / `away_player_stats`; `none` is an
absent property. -/
structure PlayerStat where
  jersey : Option JSNum
  player_name : Option String
  position : Option String
  passes : Option JSNum
  pass_completion : Option JSNum
  shots : Option JSNum
  goals : Option JSNum
  xg : Option JSNum
deriving DecidableEq, Repr

/-- The parsed body of an `/analyze` response; `none` is an absent property.
An error response is a payload with only `error` present. -/
structure Payload where
  error : Option String
  match_details : Option MatchDetails
  match_stats : Option MatchStats
  home_player_stats : Option (List PlayerStat)
  away_player_stats : Option (List PlayerStat)
  home_summary : Option String
  away_summary : Option String
  match_visualization : Option String
  home_shot_map : Option String
  away_shot_map : Option String
  player_heatmap : Option String
  player_name : Option String
deriving DecidableEq, Repr

/-- The parsed body of an `/upload` response. -/
structure UploadResult where
  error : Option String
  file_path : Option String
deriving DecidableEq, Repr

/-- The parsed body of a `/list-files` response. -/
structure FileList where
  files : Option (List String)
deriving DecidableEq, Repr

/-- What one `fetch` followed by `response.json()` can yield. -/
inductive FetchResult (α : Type) where
  /-- The promise of `fetch` rejects (network failure). -/
  | rejected (message : String)
  /-- A response whose `ok` is false, with its status code. -/
  | notOk (status : Nat)
  /-- An ok response whose body is not JSON: `response.json()` rejects. -/
  | badJson (message : String)
  /-- An ok response with its parsed body. -/
  | json (body : α)
deriving DecidableEq, Repr

/-- An `<option>` element. -/
structure OptionEl where
  value : String
  textContent : String
  disabled : Bool
  selected : Bool
deriving DecidableEq, Repr

/-- A child of the player `<select>`: an option or an `<optgroup>`. -/
inductive SelNode where
  | option (o : OptionEl)
  | optgroup (label : String) (children : List OptionEl)
deriving DecidableEq, Repr

/-- A `<tr>` of a player table: its class, its `data-player-name`, and the
eight strings interpolated into its cells, in order. -/
structure Row where
  className : String
  playerName : String
  cells : List String
deriving DecidableEq, Repr

/-- The two functions whose invocations are recorded in the log. -/
inductive Fn where
  | renderMatchData
  | populatePlayerSelector
deriving DecidableEq, Repr

/-- The request of a `fetch`. -/
inductive Request where
  | listFiles
  | upload (file : String)
  | analyze (file : String) (player : Option String)
deriving DecidableEq, Repr

/-- Observable effects outside the page, in order, and function entries. -/
inductive Event where
  | alert (message : String)
  | consoleError (label : String) (message : String)
  | fetch (req : Request)
  | invoked (fn : Fn)
deriving DecidableEq, Repr

/-- The module variables and the `elements` table.  An element the script
tests for existence before use is an `Option`; `hidden` is the presence of
the class `hidden`. -/
structure Page where
  matchData : Option Payload
  selectedPlayer : Option String
  matchSelector : List OptionEl
  analyzeBtnDisabled : Bool
  loadingHidden : Bool
  resultsHidden : Bool
  homeTeamName : String
  awayTeamName : String
  homeFormation : String
  awayFormation : String
  homeScore : String
  awayScore : String
  possessionHome : String
  possessionAway : String
  possessionHomeValue : String
  possessionAwayValue : String
  shotsHome : String
  shotsAway : String
  xgHome : String
  xgAway : String
  passesHome : String
  passesAway : String
  passCompletionHome : String
  passCompletionAway : String
  matchVisualization : String
  homeShotMap : Option String
  awayShotMap : Option String
  playerHeatmap : Option String
  playerHeatmapTitle : Option String
  playerSelector : Option (List SelNode)
  homeSummary : String
  awaySummary : String
  homePlayersTable : List Row
  awayPlayersTable : List Row
  log : List Event
deriving DecidableEq, Repr

/-- Append one event to the log. -/
def Page.emit (s : Page) (e : Event) : Page := { s with log := s.log ++ [e] }

/-! ## 3. The functions of `script.js` -/

/-- Message of the TypeError raised when a property is read from, or a
method is called on, `undefined` (the wording of V8). -/
def typeErrorMessage (prop : String) : String :=
  "Cannot read properties of undefined (reading '" ++ prop ++ "')"

/-- The getter `select.value`: the value of the first selected option, or
the empty string. -/
def selectValue (options : List OptionEl) : String :=
  match options.find? (fun o => o.selected) with
  | some o => o.value
  | none => ""

/-- The setter `select.value = v`: deselect everything, then select the
first option whose value is `v`, if any. -/
def selectSetValue (v : String) : List OptionEl → List OptionEl
  | [] => []
  | o :: rest =>
      if o.value = v then
        { o with selected := true } :: rest.map (fun r => { r with selected := false })
      else { o with selected := false } :: selectSetValue v rest

/-- Keep only the last selected option selected. -/
def keepLastSelected : List OptionEl → List OptionEl
  | [] => []
  | o :: rest =>
      if rest.any (fun r => r.selected) then
        { o with selected := false } :: keepLastSelected rest
      else o :: rest

/-- Select the first option that is not disabled. -/
def selectFirstEnabled : List OptionEl → List OptionEl
  | [] => []
  | o :: rest =>
      if o.disabled then o :: selectFirstEnabled rest
      else { o with selected := true } :: rest

/-- The call `select.appendChild(option)` on a drop-down `<select>`: the
option is added and the selectedness is reset (with none selected the first
enabled option becomes selected; with several, the last one stays). -/
def selectAppend (options : List OptionEl) (o : OptionEl) : List OptionEl :=
  let all := options ++ [o]
  if all.any (fun r => r.selected) then keepLastSelected all
  else selectFirstEnabled all

/-- The label of a match file: `file.split('/').pop().split('.')[0]`
behind the word "Match". -/
def fileLabel (file : String) : String :=
  "Match " ++ (((file.splitOn "/").getLastD "").splitOn ".").headD ""

/-- The body of the `catch` of `loadAvailableFiles` and its "no files"
branch share the shape of the placeholder option. -/
def placeholderOption (text : String) : OptionEl :=
  { value := "", textContent := text, disabled := true, selected := true }

/-- Function `loadAvailableFiles` on the outcome of its fetch of `/list-files`. -/
def loadAvailableFiles (r : FetchResult FileList) (s : Page) : Page :=
  let s := s.emit (.fetch .listFiles)
  let caught : String → Page := fun m =>
    let s := s.emit (.consoleError "Error loading available files:" m)
    { s with matchSelector := selectAppend s.matchSelector (placeholderOption "Error loading files") }
  match r with
  | .rejected m => caught m
  | .notOk code => caught ("Server error: " ++ toString code)
  | .badJson m => caught m
  | .json data =>
      match data.files with
      | some (f :: fs) =>
          { s with
            matchSelector := (f :: fs).foldl
              (fun sel file =>
                selectAppend sel
                  { value := file, textContent := fileLabel file, disabled := false, selected := false })
              []
            analyzeBtnDisabled := false }
      | _ =>
          { s with
            matchSelector := selectAppend [] (placeholderOption "No files available")
            analyzeBtnDisabled := true }

/-- Cell of `${player.jersey || '-'}`. -/
def jerseyCell (j : Option JSNum) : String :=
  if truthyNum j then numOrUndefined j else "-"

/-- Cell of `${player.player_name || '-'}` and `${player.position || '-'}`. -/
def textCell (t : Option String) : String :=
  if truthyStr t then strOrUndefined t else "-"

/-- The builtin `Math.round` applied to a possibly absent property
(`undefined` converts to `NaN`). -/
def mathRound : Option JSNum → JSNum
  | some n => n.round
  | none => JSNum.nan

/-- Cell of `${Math.round(v) || 0}`. -/
def countCell (v : Option JSNum) : String :=
  let r := mathRound v
  (if r.truthy then r else JSNum.ofInt 0).toStr

/-- Cell of `${v ? v.toFixed(1) + '%' : '0%'}`. -/
def passCompletionCell : Option JSNum → String
  | some n => if n.truthy then n.toFixed 1 ++ "%" else "0%"
  | none => "0%"

/-- Cell of `${v ? v.toFixed(2) : '0.00'}`. -/
def xgCell : Option JSNum → String
  | some n => if n.truthy then n.toFixed 2 else "0.00"
  | none => "0.00"

/-- The row that the callback of `players.forEach` in `renderPlayerTable`
builds for one player (the click listener is not part of the page state). -/
def playerRow (player : PlayerStat) : Row :=
  { className := "hover:bg-blue-50 cursor-pointer"
    playerName := strOrUndefined player.player_name
    cells :=
      [ jerseyCell player.jersey
      , textCell player.player_name
      , textCell player.position
      , countCell player.passes
      , passCompletionCell player.pass_completion
      , countCell player.shots
      , countCell player.goals
      , xgCell player.xg ] }

/-- The markup assigned to `row.innerHTML`, from the eight cell strings. -/
def Row.innerHTML (r : Row) : String :=
  "\n            <td class=\"py-3 px-4 text-center font-semibold\">" ++ r.cells.getD 0 "" ++ "</td>"
  ++ "\n            <td class=\"py-3 px-4\">" ++ r.cells.getD 1 "" ++ "</td>"
  ++ "\n            <td class=\"py-3 px-4\">" ++ r.cells.getD 2 "" ++ "</td>"
  ++ "\n            <td class=\"py-3 px-4\">" ++ r.cells.getD 3 "" ++ "</td>"
  ++ "\n            <td class=\"py-3 px-4\">" ++ r.cells.getD 4 "" ++ "</td>"
  ++ "\n            <td class=\"py-3 px-4\">" ++ r.cells.getD 5 "" ++ "</td>"
  ++ "\n            <td class=\"py-3 px-4\">" ++ r.cells.getD 6 "" ++ "</td>"
  ++ "\n            <td class=\"py-3 px-4\">" ++ r.cells.getD 7 "" ++ "</td>"
  ++ "\n        "

/-- Function `renderPlayerTable`: the table is emptied and receives one row
per player, in input order. -/
def renderPlayerTable (players : List PlayerStat) : List Row :=
  players.map playerRow

/-- The first statement of `renderMatchData`: an away possession that is
`=== 0` is overwritten with `100 - home`. -/
def normalizePossession (ms : MatchStats) : MatchStats :=
  if ms.possession.away.isZero then
    { ms with possession :=
        { ms.possession with away := JSNum.sub (JSNum.ofInt 100) ms.possession.home } }
  else ms

/-- The `src` of an inline PNG. -/
def pngSrc (b64 : String) : String := "data:image/png;base64," ++ b64

/-- Result of running `renderMatchData`: the payload as the function leaves
it (it writes into its argument), the page, and the message of the error it
raised, if any. -/
structure Rendered where
  data : Payload
  page : Page
  thrown : Option String
deriving DecidableEq, Repr

/-- Function `renderMatchData`. -/
def renderMatchData (data : Payload) (s : Page) : Rendered :=
  let s := s.emit (.invoked .renderMatchData)
  match data.match_stats with
  | none => { data := data, page := s, thrown := some (typeErrorMessage "possession") }
  | some ms0 =>
    let ms := normalizePossession ms0
    let data := { data with match_stats := some ms }
    match data.match_details with
    | none => { data := data, page := s, thrown := some (typeErrorMessage "home_team") }
    | some md =>
      let homePoss := ms.possession.home
      let awayPoss := ms.possession.away
      let withHeatmap : Bool := truthyStr data.player_heatmap && s.playerHeatmap.isSome
      { data := data
        thrown := none
        page :=
          { s with
            homeTeamName := md.home_team
            awayTeamName := md.away_team
            homeFormation := md.home_formation
            awayFormation := md.away_formation
            homeScore := ms.goals.home.toStr
            awayScore := ms.goals.away.toStr
            possessionHome := homePoss.toStr ++ "%"
            possessionAway := awayPoss.toStr ++ "%"
            possessionHomeValue := homePoss.toStr ++ "%"
            possessionAwayValue := awayPoss.toStr ++ "%"
            shotsHome := ms.shots.home.toStr
            shotsAway := ms.shots.away.toStr
            xgHome := ms.xg.home.toFixed 2
            xgAway := ms.xg.away.toFixed 2
            passesHome := ms.passes.home.toStr
            passesAway := ms.passes.away.toStr
            passCompletionHome := ms.passes.home_completion.toFixed 1 ++ "%"
            passCompletionAway := ms.passes.away_completion.toFixed 1 ++ "%"
            homeSummary :=
              if truthyStr data.home_summary then strOrUndefined data.home_summary
              else "No summary available."
            awaySummary :=
              if truthyStr data.away_summary then strOrUndefined data.away_summary
              else "No summary available."
            homePlayersTable := renderPlayerTable (data.home_player_stats.getD [])
            awayPlayersTable := renderPlayerTable (data.away_player_stats.getD [])
            matchVisualization :=
              if truthyStr data.match_visualization then
                pngSrc (strOrUndefined data.match_visualization)
              else s.matchVisualization
            homeShotMap :=
              if truthyStr data.home_shot_map && s.homeShotMap.isSome then
                some (pngSrc (strOrUndefined data.home_shot_map))
              else s.homeShotMap
            awayShotMap :=
              if truthyStr data.away_shot_map && s.awayShotMap.isSome then
                some (pngSrc (strOrUndefined data.away_shot_map))
              else s.awayShotMap
            playerHeatmap :=
              if withHeatmap then some (pngSrc (strOrUndefined data.player_heatmap))
              else s.playerHeatmap
            playerHeatmapTitle :=
              if withHeatmap && s.playerHeatmapTitle.isSome && truthyStr data.player_name then
                some (strOrUndefined data.player_name ++ " - Position Heatmap")
              else s.playerHeatmapTitle } }

/-- The option that `populatePlayerSelector` creates for one player. -/
def playerOption (player : PlayerStat) : OptionEl :=
  { value := strOrUndefined player.player_name
    textContent :=
      numOrUndefined player.jersey ++ " - " ++ strOrUndefined player.player_name
        ++ " (" ++ strOrUndefined player.position ++ ")"
    disabled := false
    selected := false }

/-- The sentinel that `populatePlayerSelector` appends first. -/
def defaultOption : OptionEl :=
  { value := "", textContent := "Select a player", disabled := false, selected := true }

/-- Result of running a function that may raise: the page and the message
of the error raised, if any. -/
structure Ran where
  page : Page
  thrown : Option String
deriving DecidableEq, Repr

/-- Function `populatePlayerSelector`.  The sentinel is the one selected
option throughout, so appending the groups leaves the selectedness as is. -/
def populatePlayerSelector (data : Payload) (s : Page) : Ran :=
  let s := s.emit (.invoked .populatePlayerSelector)
  match s.playerSelector with
  | none => { page := s, thrown := none }
  | some _ =>
    let sel0 := [SelNode.option defaultOption]
    match data.match_details with
    | none =>
        { page := { s with playerSelector := some sel0 }
          thrown := some (typeErrorMessage "home_team") }
    | some md =>
      match data.home_player_stats with
      | none =>
          { page := { s with playerSelector := some sel0 }
            thrown := some (typeErrorMessage "forEach") }
      | some home =>
        let sel1 := sel0 ++ [SelNode.optgroup md.home_team (home.map playerOption)]
        match data.away_player_stats with
        | none =>
            { page := { s with playerSelector := some sel1 }
              thrown := some (typeErrorMessage "forEach") }
        | some away =>
            let sel2 := sel1 ++ [SelNode.optgroup md.away_team (away.map playerOption)]
            { page := { s with playerSelector := some sel2 }
              thrown := none }

/-- The `catch` block of `analyzeMatchFile`. -/
def analyzeCatch (message : String) (s : Page) : Page :=
  let s := s.emit (.consoleError "Error fetching analysis:" message)
  let s := s.emit (.alert ("Error analyzing match: " ++ message))
  { s with loadingHidden := true }

/-- Function `analyzeMatchFile` on the outcome of its fetch of `/analyze`.
The request carries the player only when `playerName` is truthy. -/
def analyzeMatchFile (matchFile : String) (playerName : Option String)
    (r : FetchResult Payload) (s : Page) : Page :=
  let s := s.emit
    (.fetch (.analyze matchFile (if truthyStr playerName then playerName else none)))
  match r with
  | .rejected m => analyzeCatch m s
  | .notOk code => analyzeCatch ("Server error: " ++ toString code) s
  | .badJson m => analyzeCatch m s
  | .json body =>
    let s := { s with matchData := some body }
    if truthyStr body.error then analyzeCatch (strOrUndefined body.error) s
    else
      let rendered := renderMatchData body s
      let s := { rendered.page with matchData := some rendered.data }
      match rendered.thrown with
      | some m => analyzeCatch m s
      | none =>
        let s := { s with loadingHidden := true, resultsHidden := false }
        if truthyStr playerName then s
        else
          let populated := populatePlayerSelector rendered.data s
          match populated.thrown with
          | some m => analyzeCatch m populated.page
          | none => populated.page

/-- Function `analyzeMatch` (click on the analyze button).  Its own `catch`
is never entered: `analyzeMatchFile` catches every error itself. -/
def analyzeMatch (r : FetchResult Payload) (s : Page) : Page :=
  let s := { s with loadingHidden := false, resultsHidden := true, selectedPlayer := none }
  analyzeMatchFile (selectValue s.matchSelector) none r s

/-- Function `handlePlayerSelection` (change of the player selector), on
the value of the event target. -/
def handlePlayerSelection (playerName : String) (r : FetchResult Payload) (s : Page) : Page :=
  let s := { s with selectedPlayer := some playerName }
  if playerName ≠ "" ∧ s.matchData.isSome then
    let s := { s with loadingHidden := false }
    let s := analyzeMatchFile (selectValue s.matchSelector) (some playerName) r s
    { s with loadingHidden := true }
  else s

/-- The `catch` block of `handleFileUpload`. -/
def uploadCatch (message : String) (s : Page) : Page :=
  let s := s.emit (.consoleError "Error uploading file:" message)
  let s := s.emit (.alert ("Error uploading file: " ++ message))
  { s with loadingHidden := true }

/-- Function `handleFileUpload` (change of the file input), on the name of
the chosen file, if any, and the outcomes of its three fetches in order. -/
def handleFileUpload (file : Option String) (up : FetchResult UploadResult)
    (ls : FetchResult FileList) (an : FetchResult Payload) (s : Page) : Page :=
  match file with
  | none => s
  | some f =>
    let s := { s with loadingHidden := false, resultsHidden := true }
    let s := s.emit (.fetch (.upload f))
    match up with
    | .rejected m => uploadCatch m s
    | .notOk code => uploadCatch ("Server error: " ++ toString code) s
    | .badJson m => uploadCatch m s
    | .json result =>
      if truthyStr result.error then uploadCatch (strOrUndefined result.error) s
      else
        let filePath := strOrUndefined result.file_path
        let s := loadAvailableFiles ls s
        let s := { s with matchSelector := selectSetValue filePath s.matchSelector }
        analyzeMatchFile filePath none an s

/-! ## 4. Inputs and vocabulary of the properties

### Concrete inputs -/

/-- A page on which nothing has been rendered yet: every optional element
exists, the loading indicator and the results pane are hidden. -/
def blankPage : Page :=
  { matchData := none, selectedPlayer := none, matchSelector := [],
    analyzeBtnDisabled := false, loadingHidden := true, resultsHidden := true,
    homeTeamName := "", awayTeamName := "", homeFormation := "", awayFormation := "",
    homeScore := "", awayScore := "", possessionHome := "", possessionAway := "",
    possessionHomeValue := "", possessionAwayValue := "", shotsHome := "", shotsAway := "",
    xgHome := "", xgAway := "", passesHome := "", passesAway := "",
    passCompletionHome := "", passCompletionAway := "", matchVisualization := "",
    homeShotMap := some "", awayShotMap := some "", playerHeatmap := some "",
    playerHeatmapTitle := some "", playerSelector := some [],
    homeSummary := "", awaySummary := "", homePlayersTable := [], awayPlayersTable := [],
    log := [] }

/-- The home player of the scenario of the specification (section 8, item 6):
no `pass_completion`. -/
def scenarioPlayer : PlayerStat :=
  { jersey := some (JSNum.ofInt 9), player_name := some "X", position := some "FW",
    passes := some (JSNum.ofInt 30), pass_completion := none,
    shots := some (JSNum.ofInt 4), goals := some (JSNum.ofInt 2),
    xg := some (JSNum.ofDecimal false 12 1) }

/-- The `match_stats` of the scenario. -/
def scenarioStats : MatchStats :=
  { possession := { home := JSNum.ofInt 63, away := JSNum.ofInt 0 }
    goals := { home := JSNum.ofInt 2, away := JSNum.ofInt 1 }
    shots := { home := JSNum.ofInt 10, away := JSNum.ofInt 7 }
    xg := { home := JSNum.ofDecimal false 18 1, away := JSNum.ofDecimal false 9 1 }
    passes :=
      { home := JSNum.ofInt 420, away := JSNum.ofInt 310
        home_completion := JSNum.ofDecimal false 872 1
        away_completion := JSNum.ofDecimal false 795 1 } }

/-- The payload of the scenario. -/
def scenario : Payload :=
  { error := none
    match_details := some
      { home_team := "A", away_team := "B", home_formation := "4-3-3", away_formation := "4-4-2" }
    match_stats := some scenarioStats
    home_player_stats := some [scenarioPlayer]
    away_player_stats := some []
    home_summary := none, away_summary := none, match_visualization := none,
    home_shot_map := none, away_shot_map := none, player_heatmap := none, player_name := none }

/-! ### Vocabulary of the properties -/

/-- The options under one child of the player selector. -/
def SelNode.entries : SelNode → List OptionEl
  | .option o => [o]
  | .optgroup _ children => children

/-- All options of the player selector, in document order. -/
def selectorEntries : List SelNode → List OptionEl
  | [] => []
  | node :: rest => node.entries ++ selectorEntries rest

/-- The groups of the player selector, as label and size, in document order. -/
def selectorGroups : List SelNode → List (String × Nat)
  | [] => []
  | .option _ :: rest => selectorGroups rest
  | .optgroup label children :: rest => (label, children.length) :: selectorGroups rest

/-- A finite Number from 0 to 100. -/
def JSNum.isPercent : JSNum → Prop
  | .fin m e => 0 ≤ m ∧ m * 2 ^ e.toNat ≤ 100 * 2 ^ (-e).toNat
  | _ => False

/-- The analysis fetch fails, or its parsed body carries a non-empty `error`. -/
def analysisFails : FetchResult Payload → Bool
  | .json body => truthyStr body.error
  | _ => true

/-- The upload fetch fails, or its parsed body carries a non-empty `error`. -/
def uploadFails : FetchResult UploadResult → Bool
  | .json result => truthyStr result.error
  | _ => true

/-- The fetch yields no parsed body. -/
def noBody {α : Type} : FetchResult α → Bool
  | .json _ => false
  | _ => true

/-- The three user actions, each with the outcomes of its fetches
(`handleFileUpload` with a chosen file). -/
inductive UserAction where
  | analyzeMatch (r : FetchResult Payload)
  | handleFileUpload (file : String) (up : FetchResult UploadResult)
      (ls : FetchResult FileList) (an : FetchResult Payload)
  | handlePlayerSelection (playerName : String) (r : FetchResult Payload)

/-- The handler of a user action. -/
def UserAction.run : UserAction → Page → Page
  | .analyzeMatch r, s => MatchViewer.analyzeMatch r s
  | .handleFileUpload file up ls an, s => MatchViewer.handleFileUpload (some file) up ls an s
  | .handlePlayerSelection playerName r, s => MatchViewer.handlePlayerSelection playerName r s

/-- The action issues its upload or analysis request and that request
fails or answers with a non-empty `error`. -/
def UserAction.fails : UserAction → Page → Bool
  | .analyzeMatch r, _ => analysisFails r
  | .handleFileUpload _ up _ an, _ => uploadFails up || analysisFails an
  | .handlePlayerSelection playerName r, s =>
      decide (playerName ≠ "") && s.matchData.isSome && analysisFails r

/-- The failure happens before any analysis body is parsed. -/
def UserAction.failsWithoutBody : UserAction → Bool
  | .analyzeMatch r => noBody r
  | .handleFileUpload _ up _ an => uploadFails up || noBody an
  | .handlePlayerSelection _ r => noBody r

/-- The action hides the results pane before its request. -/
def UserAction.hidesResults : UserAction → Bool
  | .handlePlayerSelection _ _ => false
  | _ => true

/-- The rendered part of a page: every text, bar, table and image slot and
the player selector.  The module variables, the match list, the analyze
button, the two visibility flags and the log are blanked. -/
def Page.display (s : Page) : Page :=
  { s with
    matchData := none, selectedPlayer := none, matchSelector := [],
    analyzeBtnDisabled := false, loadingHidden := true, resultsHidden := true, log := [] }

/-- A body that carries only an error message. -/
def errorBody (message : String) : Payload :=
  { error := some message, match_details := none, match_stats := none,
    home_player_stats := none, away_player_stats := none, home_summary := none,
    away_summary := none, match_visualization := none, home_shot_map := none,
    away_shot_map := none, player_heatmap := none, player_name := none }

/-! ## 5. Properties

### Projections of `renderMatchData` -/

/-- With `match_stats` and `match_details` present, `renderMatchData` raises
nothing. -/
theorem renderMatchData_thrown (data : Payload) (s : Page) (ms : MatchStats) (md : MatchDetails)
    (hs : data.match_stats = some ms) (hd : data.match_details = some md) :
    (renderMatchData data s).thrown = none := by
  simp [renderMatchData, hs, hd]

/-- The four possession slots after `renderMatchData`. -/
theorem renderMatchData_possession (data : Payload) (s : Page) (ms : MatchStats)
    (md : MatchDetails) (hs : data.match_stats = some ms) (hd : data.match_details = some md) :
    (renderMatchData data s).page.possessionHomeValue
        = (normalizePossession ms).possession.home.toStr ++ "%"
    ∧ (renderMatchData data s).page.possessionAwayValue
        = (normalizePossession ms).possession.away.toStr ++ "%"
    ∧ (renderMatchData data s).page.possessionHome
        = (normalizePossession ms).possession.home.toStr ++ "%"
    ∧ (renderMatchData data s).page.possessionAway
        = (normalizePossession ms).possession.away.toStr ++ "%" := by
  simp [renderMatchData, hs, hd]

/-- The home possession is never rewritten. -/
theorem normalizePossession_home (ms : MatchStats) :
    (normalizePossession ms).possession.home = ms.possession.home := by
  unfold normalizePossession
  split <;> rfl

/-- A zero away possession becomes `100 - home`. -/
theorem normalizePossession_zero (ms : MatchStats) (e : Int)
    (h : ms.possession.away = JSNum.fin 0 e) :
    (normalizePossession ms).possession.away
      = JSNum.sub (JSNum.ofInt 100) ms.possession.home := by
  simp [normalizePossession, h, JSNum.isZero]

/-- Any other away possession is kept. -/
theorem normalizePossession_nonzero (ms : MatchStats)
    (h : ∀ e : Int, ms.possession.away ≠ JSNum.fin 0 e) :
    (normalizePossession ms).possession.away = ms.possession.away := by
  unfold normalizePossession
  split
  · rename_i hz
    cases ha : ms.possession.away with
    | nan => simp [ha, JSNum.isZero] at hz
    | inf b => simp [ha, JSNum.isZero] at hz
    | fin m e =>
      simp [ha, JSNum.isZero] at hz
      exact absurd (hz ▸ ha) (h e)
  · rfl

/-! ### Claims -/

/-- C1 (possession normalization): with `match_stats` and `match_details`
present, the rendered home value is `h`; the rendered away value (text and
bar width) is `100 - h` when the away possession of the payload is zero, and
is the away possession itself, unchanged, when that is not zero. -/
theorem possession_normalization (data : Payload) (s : Page) (ms : MatchStats)
    (md : MatchDetails) (hs : data.match_stats = some ms) (hd : data.match_details = some md) :
    (renderMatchData data s).page.possessionHomeValue = ms.possession.home.toStr ++ "%"
    ∧ (renderMatchData data s).page.possessionHome = ms.possession.home.toStr ++ "%"
    ∧ ((∃ e : Int, ms.possession.away = JSNum.fin 0 e) →
        (renderMatchData data s).page.possessionAwayValue
            = (JSNum.sub (JSNum.ofInt 100) ms.possession.home).toStr ++ "%"
        ∧ (renderMatchData data s).page.possessionAway
            = (JSNum.sub (JSNum.ofInt 100) ms.possession.home).toStr ++ "%")
    ∧ ((∀ e : Int, ms.possession.away ≠ JSNum.fin 0 e) →
        (renderMatchData data s).page.possessionAwayValue = ms.possession.away.toStr ++ "%"
        ∧ (renderMatchData data s).page.possessionAway = ms.possession.away.toStr ++ "%") := by
  obtain ⟨h1, h2, h3, h4⟩ := renderMatchData_possession data s ms md hs hd
  rw [normalizePossession_home] at h1 h3
  refine ⟨h1, h3, ?_, ?_⟩
  · rintro ⟨e, he⟩
    rw [normalizePossession_zero ms e he] at h2 h4
    exact ⟨h2, h4⟩
  · intro hne
    rw [normalizePossession_nonzero ms hne] at h2 h4
    exact ⟨h2, h4⟩

/-- Witness of C1 at the scenario payload: home 63 and away 0 render as
"63%" and "37%". -/
theorem possession_normalization_witness :
    (renderMatchData scenario blankPage).page.possessionHomeValue = "63%"
    ∧ (renderMatchData scenario blankPage).page.possessionAwayValue = "37%"
    ∧ (renderMatchData scenario blankPage).page.possessionAway = "37%" := by
  have h := possession_normalization scenario blankPage scenarioStats
    { home_team := "A", away_team := "B", home_formation := "4-3-3", away_formation := "4-4-2" }
    rfl rfl
  have e63 : (JSNum.ofInt 63).toStr ++ "%" = "63%" := by decide
  have e37 : (JSNum.sub (JSNum.ofInt 100) (JSNum.ofInt 63)).toStr ++ "%" = "37%" := by decide
  obtain ⟨h1, _, h3, _⟩ := h
  obtain ⟨h5, h6⟩ := h3 ⟨0, rfl⟩
  exact ⟨h1.trans e63, h5.trans e37, h6.trans e37⟩

/-- C2 (scenario): on any page, rendering the scenario payload raises
nothing and yields away possession "37%" (text and bar), xG "1.80" and
"0.90", pass completion "87.2%" and "79.5%", exactly one home row with the
cells 9, X, FW, 30, 0%, 4, 2, 1.20 in that order, no away row, and both
summaries equal to "No summary available.". -/
theorem scenario_rendering (s : Page) :
    (renderMatchData scenario s).thrown = none
    ∧ (renderMatchData scenario s).page.possessionAwayValue = "37%"
    ∧ (renderMatchData scenario s).page.possessionAway = "37%"
    ∧ (renderMatchData scenario s).page.xgHome = "1.80"
    ∧ (renderMatchData scenario s).page.xgAway = "0.90"
    ∧ (renderMatchData scenario s).page.passCompletionHome = "87.2%"
    ∧ (renderMatchData scenario s).page.passCompletionAway = "79.5%"
    ∧ (renderMatchData scenario s).page.homePlayersTable.map (fun r => r.cells)
        = [["9", "X", "FW", "30", "0%", "4", "2", "1.20"]]
    ∧ (renderMatchData scenario s).page.awayPlayersTable = []
    ∧ (renderMatchData scenario s).page.homeSummary = "No summary available."
    ∧ (renderMatchData scenario s).page.awaySummary = "No summary available." := by
  have away : (normalizePossession scenarioStats).possession.away.toStr ++ "%" = "37%" := by
    decide
  have xgH : (normalizePossession scenarioStats).xg.home.toFixed 2 = "1.80" := by decide
  have xgA : (normalizePossession scenarioStats).xg.away.toFixed 2 = "0.90" := by decide
  have pcH : (normalizePossession scenarioStats).passes.home_completion.toFixed 1 ++ "%"
      = "87.2%" := by decide
  have pcA : (normalizePossession scenarioStats).passes.away_completion.toFixed 1 ++ "%"
      = "79.5%" := by decide
  have row : (renderPlayerTable [scenarioPlayer]).map (fun r => r.cells)
      = [["9", "X", "FW", "30", "0%", "4", "2", "1.20"]] := by decide
  exact ⟨rfl, away, away, xgH, xgA, pcH, pcA, row, rfl, rfl, rfl⟩

/-- Refutation of C10 as stated: at the scenario payload the home possession
text is "63%", while one decimal place would give "63.0%"; the
pass-completion text of the same rendering does carry one decimal place. -/
theorem possession_one_decimal_counterexample :
    (renderMatchData scenario blankPage).page.possessionHomeValue = "63%"
    ∧ (JSNum.ofInt 63).toFixed 1 ++ "%" = "63.0%"
    ∧ (renderMatchData scenario blankPage).page.possessionHomeValue
        ≠ (JSNum.ofInt 63).toFixed 1 ++ "%"
    ∧ (renderMatchData scenario blankPage).page.possessionAwayValue = "37%"
    ∧ (renderMatchData scenario blankPage).page.possessionAwayValue
        ≠ (JSNum.sub (JSNum.ofInt 100) (JSNum.ofInt 63)).toFixed 1 ++ "%"
    ∧ (renderMatchData scenario blankPage).page.passCompletionHome = "87.2%" := by
  decide

/-- C10 (amended): with `match_stats` and `match_details` present, the home
and away possession texts are the normalized possession values in the plain
string conversion of a Number followed by "%" (no fixed number of decimal
places), while the home and away pass-completion texts are the completion
values with exactly one decimal place followed by "%". -/
theorem possession_text_format (data : Payload) (s : Page) (ms : MatchStats)
    (md : MatchDetails) (hs : data.match_stats = some ms) (hd : data.match_details = some md) :
    (renderMatchData data s).page.possessionHomeValue
        = (normalizePossession ms).possession.home.toStr ++ "%"
    ∧ (renderMatchData data s).page.possessionAwayValue
        = (normalizePossession ms).possession.away.toStr ++ "%"
    ∧ (renderMatchData data s).page.passCompletionHome
        = ms.passes.home_completion.toFixed 1 ++ "%"
    ∧ (renderMatchData data s).page.passCompletionAway
        = ms.passes.away_completion.toFixed 1 ++ "%" := by
  have hp : (normalizePossession ms).passes = ms.passes := by
    unfold normalizePossession
    split <;> rfl
  simp [renderMatchData, hs, hd, hp]

/-- Witness of C10 (amended) at the scenario payload. -/
theorem possession_text_format_witness :
    (renderMatchData scenario blankPage).page.possessionHomeValue
        = (normalizePossession scenarioStats).possession.home.toStr ++ "%"
    ∧ (renderMatchData scenario blankPage).page.possessionAwayValue
        = (normalizePossession scenarioStats).possession.away.toStr ++ "%"
    ∧ (renderMatchData scenario blankPage).page.passCompletionHome
        = scenarioStats.passes.home_completion.toFixed 1 ++ "%"
    ∧ (renderMatchData scenario blankPage).page.passCompletionAway
        = scenarioStats.passes.away_completion.toFixed 1 ++ "%" :=
  possession_text_format scenario blankPage scenarioStats
    { home_team := "A", away_team := "B", home_formation := "4-3-3", away_formation := "4-4-2" }
    rfl rfl

/-- C5 (selector grouping): on a page that has the player selector, for a
payload with `match_details`, N home players and M away players,
`populatePlayerSelector` raises nothing and leaves the selector as: the
sentinel with empty value, then the group labelled with the home team, then
the group labelled with the away team; each group holds its players in input
order, each entry with the player's name as value and the label
"{jersey} - {player_name} ({position})"; there are exactly two groups, of N
and M entries, and 1 + N + M entries in total. -/
theorem selector_grouping (data : Payload) (s : Page) (md : MatchDetails)
    (home away : List PlayerStat) (old : List SelNode)
    (hd : data.match_details = some md) (hh : data.home_player_stats = some home)
    (ha : data.away_player_stats = some away) (hsel : s.playerSelector = some old) :
    (populatePlayerSelector data s).thrown = none
    ∧ (∃ nodes, (populatePlayerSelector data s).page.playerSelector = some nodes
        ∧ nodes =
          [ SelNode.option
              { value := "", textContent := "Select a player", disabled := false, selected := true }
          , SelNode.optgroup md.home_team (home.map (fun p =>
              { value := strOrUndefined p.player_name
                textContent := numOrUndefined p.jersey ++ " - " ++ strOrUndefined p.player_name
                  ++ " (" ++ strOrUndefined p.position ++ ")"
                disabled := false, selected := false }))
          , SelNode.optgroup md.away_team (away.map (fun p =>
              { value := strOrUndefined p.player_name
                textContent := numOrUndefined p.jersey ++ " - " ++ strOrUndefined p.player_name
                  ++ " (" ++ strOrUndefined p.position ++ ")"
                disabled := false, selected := false })) ]
        ∧ selectorGroups nodes = [(md.home_team, home.length), (md.away_team, away.length)]
        ∧ (selectorEntries nodes).length = 1 + home.length + away.length) := by
  refine ⟨by simp [populatePlayerSelector, Page.emit, hd, hh, ha, hsel], ?_⟩
  refine ⟨_, by simp [populatePlayerSelector, Page.emit, hd, hh, ha, hsel]; rfl, ?_, ?_, ?_⟩
  · simp [defaultOption, playerOption]
  · simp [selectorGroups]
  · simp [selectorEntries, SelNode.entries]
    omega

/-- Witness of C5 at the scenario payload (one home player, no away player). -/
theorem selector_grouping_witness :
    (populatePlayerSelector scenario blankPage).thrown = none
    ∧ (populatePlayerSelector scenario blankPage).page.playerSelector = some
        [ SelNode.option
            { value := "", textContent := "Select a player", disabled := false, selected := true }
        , SelNode.optgroup "A"
            [{ value := "X", textContent := "9 - X (FW)", disabled := false, selected := false }]
        , SelNode.optgroup "B" [] ] := by
  obtain ⟨h1, nodes, h2, h3, _, _⟩ := selector_grouping scenario blankPage
    { home_team := "A", away_team := "B", home_formation := "4-3-3", away_formation := "4-4-2" }
    [scenarioPlayer] [] [] rfl rfl rfl rfl
  refine ⟨h1, ?_⟩
  rw [h2, h3]
  decide

/-- C3 (error short-circuit): when the parsed body of the `/analyze`
response carries a non-empty `error`, `analyzeMatchFile` changes the page in
exactly three places: `matchData` holds the error body, the loading
indicator is hidden, and the log gains the request, one console message and
one alert that carries the error message.  In particular neither
`renderMatchData` nor `populatePlayerSelector` is invoked. -/
theorem error_short_circuit (matchFile : String) (playerName : Option String)
    (body : Payload) (s : Page) (msg : String)
    (herr : body.error = some msg) (hne : msg ≠ "") :
    analyzeMatchFile matchFile playerName (.json body) s =
      { s with
        matchData := some body
        loadingHidden := true
        log := s.log ++
          [ Event.fetch
              (Request.analyze matchFile (if truthyStr playerName then playerName else none))
          , Event.consoleError "Error fetching analysis:" msg
          , Event.alert ("Error analyzing match: " ++ msg) ] }
    ∧ (∀ fn : Fn, Event.invoked fn ∉
        (analyzeMatchFile matchFile playerName (.json body) s).log.drop s.log.length)
    ∧ Event.alert ("Error analyzing match: " ++ msg) ∈
        (analyzeMatchFile matchFile playerName (.json body) s).log
    ∧ (analyzeMatchFile matchFile playerName (.json body) s).loadingHidden = true := by
  have key : analyzeMatchFile matchFile playerName (.json body) s =
      { s with
        matchData := some body
        loadingHidden := true
        log := s.log ++
          [ Event.fetch
              (Request.analyze matchFile (if truthyStr playerName then playerName else none))
          , Event.consoleError "Error fetching analysis:" msg
          , Event.alert ("Error analyzing match: " ++ msg) ] } := by
    simp [analyzeMatchFile, analyzeCatch, Page.emit, herr, hne, truthyStr, strOrUndefined]
  refine ⟨key, ?_, ?_, ?_⟩
  · intro fn
    rw [key]
    simp
  · rw [key]
    simp
  · rw [key]

/-- Witness of C3: the error body "boom" on the blank page, without a
player name. -/
theorem error_short_circuit_witness :
    (analyzeMatchFile "match.json" none
        (.json { scenario with error := some "boom" }) blankPage).log
      = [ Event.fetch (Request.analyze "match.json" none)
        , Event.consoleError "Error fetching analysis:" "boom"
        , Event.alert "Error analyzing match: boom" ]
    ∧ (analyzeMatchFile "match.json" none
        (.json { scenario with error := some "boom" }) blankPage).homeTeamName = ""
    ∧ (analyzeMatchFile "match.json" none
        (.json { scenario with error := some "boom" }) blankPage).playerSelector = some [] := by
  have h := (error_short_circuit "match.json" none { scenario with error := some "boom" }
    blankPage "boom" rfl (by decide)).1
  rw [h]
  decide

/-- C6 (failing input): the scenario payload without `away_player_stats`,
analysed without a player name on the blank page.  The away table is
rendered empty, but `populatePlayerSelector` raises on the absent list: the
selector is left without the away group and an alert is shown. -/
theorem missing_away_players_raises :
    (analyzeMatchFile "match.json" none
        (.json { scenario with away_player_stats := none }) blankPage).awayPlayersTable = []
    ∧ (analyzeMatchFile "match.json" none
        (.json { scenario with away_player_stats := none }) blankPage).log
      = [ Event.fetch (Request.analyze "match.json" none)
        , Event.invoked Fn.renderMatchData
        , Event.invoked Fn.populatePlayerSelector
        , Event.consoleError "Error fetching analysis:" (typeErrorMessage "forEach")
        , Event.alert ("Error analyzing match: " ++ typeErrorMessage "forEach") ]
    ∧ (analyzeMatchFile "match.json" none
        (.json { scenario with away_player_stats := none }) blankPage).playerSelector
      = some
        [ SelNode.option
            { value := "", textContent := "Select a player", disabled := false, selected := true }
        , SelNode.optgroup "A"
            [{ value := "X", textContent := "9 - X (FW)", disabled := false, selected := false }] ] := by
  decide

/-! ### Player rows -/

/-- The eight cells of a player row, by position. -/
theorem playerRow_cells (p : PlayerStat) :
    (playerRow p).cells =
      [ jerseyCell p.jersey, textCell p.player_name, textCell p.position, countCell p.passes
      , passCompletionCell p.pass_completion, countCell p.shots, countCell p.goals
      , xgCell p.xg ] := rfl

/-- A zero Number converts to "0", whatever its exponent. -/
theorem toStr_zero (e : Int) : (JSNum.fin 0 e).toStr = "0" := by
  simp [JSNum.toStr, JSNum.toChars]

/-- On a present Number other than `NaN`, the count cell is the string
conversion of the rounded value: the fallback `|| 0` only replaces a zero by
a zero. -/
theorem countCell_some (a : JSNum) (h : a ≠ JSNum.nan) :
    countCell (some a) = a.round.toStr := by
  cases a with
  | nan => exact absurd rfl h
  | inf b => rfl
  | fin m e =>
    have key : ∀ x : JSNum, (∃ m1 e1, x = JSNum.fin m1 e1) →
        (if x.truthy = true then x else JSNum.ofInt 0).toStr = x.toStr := by
      rintro x ⟨m1, e1, rfl⟩
      by_cases hm : m1 = 0
      · subst hm
        simp [JSNum.truthy, toStr_zero, JSNum.ofInt]
      · simp [JSNum.truthy, hm]
    show (if (JSNum.fin m e).round.truthy = true then (JSNum.fin m e).round
      else JSNum.ofInt 0).toStr = _
    apply key
    unfold JSNum.round
    by_cases he : 0 ≤ e
    · exact ⟨m, e, by simp [he]⟩
    · exact ⟨(2 * m + 2 ^ (-e).toNat) / (2 * 2 ^ (-e).toNat), 0, by simp [he]⟩

/-- Refutation of C7 as stated: a player without `xg` whose other fields
are all present, with an empty position and a zero pass completion.  The
position cell is the default "-" (not the empty value) and the
pass-completion cell is "0%" (not "0.0%"). -/
theorem independent_defaults_counterexample :
    (playerRow
        { jersey := some (JSNum.ofInt 7), player_name := some "Y", position := some "",
          passes := some (JSNum.ofInt 12), pass_completion := some (JSNum.ofInt 0),
          shots := some (JSNum.ofInt 1), goals := some (JSNum.ofInt 0), xg := none }).cells
      = ["7", "Y", "-", "12", "0%", "1", "0", "0.00"]
    ∧ (JSNum.ofInt 0).toFixed 1 ++ "%" = "0.0%"
    ∧ (playerRow
        { jersey := some (JSNum.ofInt 7), player_name := some "Y", position := some "",
          passes := some (JSNum.ofInt 12), pass_completion := some (JSNum.ofInt 0),
          shots := some (JSNum.ofInt 1), goals := some (JSNum.ofInt 0), xg := none }).cells
      ≠ [ (JSNum.ofInt 7).toStr, "Y", "", (JSNum.ofInt 12).round.toStr
        , (JSNum.ofInt 0).toFixed 1 ++ "%", (JSNum.ofInt 1).round.toStr
        , (JSNum.ofInt 0).round.toStr, "0.00" ] := by
  decide

/-- C7 (amended): for every player in which `xg` is absent and every other
field is present, with a non-zero jersey, a non-empty name, a non-empty
position and a non-zero pass completion (the values the row does not take
for missing), the xg cell is "0.00" and every other cell comes from the
field's own value: jersey, name and position as they are; passes, shots and
goals rounded to the nearest integer; pass completion with one decimal place
and "%".  Numbers are those of a parsed JSON text (never `NaN`). -/
theorem independent_defaults (p : PlayerStat) (j a c b g : JSNum) (n pos : String)
    (hxg : p.xg = none)
    (hj : p.jersey = some j) (hjt : j.truthy = true)
    (hn : p.player_name = some n) (hnt : n ≠ "")
    (hpos : p.position = some pos) (hpt : pos ≠ "")
    (ha : p.passes = some a) (hat : a ≠ JSNum.nan)
    (hc : p.pass_completion = some c) (hct : c.truthy = true)
    (hb : p.shots = some b) (hbt : b ≠ JSNum.nan)
    (hg : p.goals = some g) (hgt : g ≠ JSNum.nan) :
    (playerRow p).cells =
      [ j.toStr, n, pos, a.round.toStr, c.toFixed 1 ++ "%", b.round.toStr, g.round.toStr
      , "0.00" ] := by
  rw [playerRow_cells, hxg, hj, hn, hpos, ha, hc, hb, hg, countCell_some a hat,
    countCell_some b hbt, countCell_some g hgt]
  simp [jerseyCell, textCell, passCompletionCell, xgCell, truthyNum, truthyStr,
    numOrUndefined, strOrUndefined, hjt, hnt, hpt, hct]

/-- Witness of C7 (amended): the scenario player with a pass completion of
81.5 and without `xg`. -/
theorem independent_defaults_witness :
    (playerRow { scenarioPlayer with
        pass_completion := some (JSNum.ofDecimal false 815 1), xg := none }).cells
      = ["9", "X", "FW", "30", "81.5%", "4", "2", "0.00"] := by
  have h := independent_defaults
    { scenarioPlayer with pass_completion := some (JSNum.ofDecimal false 815 1), xg := none }
    (JSNum.ofInt 9) (JSNum.ofInt 30) (JSNum.ofDecimal false 815 1) (JSNum.ofInt 4)
    (JSNum.ofInt 2) "X" "FW" rfl rfl (by decide) rfl (by decide) rfl (by decide) rfl
    (by decide) rfl (by decide) rfl (by decide) rfl (by decide)
  rw [h]
  decide

/-- Below `10 ^ 21`, `toFixed` with at least one decimal place writes a
decimal point. -/
theorem toFixedChars_has_point (m e : Int) (f : Nat) (hf : f ≠ 0)
    (h : ¬ 10 ^ 21 * 2 ^ (-e).toNat ≤ m.natAbs * 2 ^ e.toNat) :
    '.' ∈ JSNum.toFixedChars (JSNum.fin m e) f := by
  unfold JSNum.toFixedChars
  simp only []
  rw [if_neg h, if_neg hf]
  simp

/-- A Number from 0 to 100 is below `10 ^ 21`. -/
theorem isPercent_small (m e : Int) (h : (JSNum.fin m e).isPercent) :
    ¬ 10 ^ 21 * 2 ^ (-e).toNat ≤ m.natAbs * 2 ^ e.toNat := by
  obtain ⟨h0, h100⟩ := h
  intro hbig
  have hcast : ((10 ^ 21 * 2 ^ (-e).toNat : Nat) : Int) ≤ ((m.natAbs * 2 ^ e.toNat : Nat) : Int) :=
    Int.ofNat_le.mpr hbig
  push_cast at hcast
  rw [abs_of_nonneg h0] at hcast
  have hpos : (0 : Int) < 2 ^ (-e).toNat := by positivity
  linarith

/-- The text of a percentage with one decimal place is never "0%". -/
theorem toFixed_one_ne_zeroPercent (v : JSNum) (h : v.isPercent) :
    v.toFixed 1 ++ "%" ≠ "0%" := by
  cases v with
  | nan => exact absurd h (by simp [JSNum.isPercent])
  | inf b => exact absurd h (by simp [JSNum.isPercent])
  | fin m e =>
    intro heq
    have hdot := toFixedChars_has_point m e 1 (by decide) (isPercent_small m e h)
    have hdata := congrArg String.data heq
    simp only [JSNum.toFixed, String.data_append] at hdata
    have hmem : '.' ∈ JSNum.toFixedChars (JSNum.fin m e) 1 ++ "%".data :=
      List.mem_append_left _ hdot
    rw [hdata] at hmem
    revert hmem
    decide

/-- Refutation of C8 as stated: a present pass completion of 0 gives the
cell "0%", the literal reserved for an absent value, and not "0.0%". -/
theorem pass_completion_counterexample :
    (JSNum.ofInt 0).isPercent
    ∧ (playerRow { scenarioPlayer with pass_completion := some (JSNum.ofInt 0) }).cells.getD 4 ""
        = "0%"
    ∧ (JSNum.ofInt 0).toFixed 1 ++ "%" = "0.0%"
    ∧ (playerRow { scenarioPlayer with pass_completion := some (JSNum.ofInt 0) }).cells.getD 4 ""
        ≠ (JSNum.ofInt 0).toFixed 1 ++ "%" := by
  refine ⟨⟨by decide, by decide⟩, by decide, by decide, by decide⟩

/-- C8 (amended): for every player whose pass completion, when present, is
a Number from 0 to 100, the pass-completion cell is that value with exactly
one decimal place followed by "%" if it is present and not zero, and is the
literal "0%" if and only if it is absent or zero. -/
theorem pass_completion_cell (p : PlayerStat)
    (hrange : ∀ v, p.pass_completion = some v → v.isPercent) :
    (∀ v, p.pass_completion = some v → (∀ e : Int, v ≠ JSNum.fin 0 e) →
        (playerRow p).cells.getD 4 "" = v.toFixed 1 ++ "%")
    ∧ ((playerRow p).cells.getD 4 "" = "0%" ↔
        (p.pass_completion = none ∨ ∃ e : Int, p.pass_completion = some (JSNum.fin 0 e))) := by
  have hcell : (playerRow p).cells.getD 4 "" = passCompletionCell p.pass_completion := rfl
  rw [hcell]
  cases hpc : p.pass_completion with
  | none => simp [passCompletionCell]
  | some v =>
    have hv := hrange v hpc
    cases v with
    | nan => exact absurd hv (by simp [JSNum.isPercent])
    | inf b => exact absurd hv (by simp [JSNum.isPercent])
    | fin m e =>
      by_cases hm : m = 0
      · subst hm
        refine ⟨?_, ?_⟩
        · intro v hveq hne
          cases hveq
          exact absurd rfl (hne e)
        · simp [passCompletionCell, JSNum.truthy]
      · have hcellv : passCompletionCell (some (JSNum.fin m e))
            = (JSNum.fin m e).toFixed 1 ++ "%" := by
          simp [passCompletionCell, JSNum.truthy, hm]
        refine ⟨?_, ?_⟩
        · intro v hveq _
          cases hveq
          exact hcellv
        · rw [hcellv]
          constructor
          · intro h0
            exact absurd h0 (toFixed_one_ne_zeroPercent _ hv)
          · rintro (h | ⟨e0, h⟩)
            · cases h
            · cases h
              exact absurd rfl hm

/-- Witness of C8 (amended): a pass completion of 81.5. -/
theorem pass_completion_cell_witness :
    (playerRow { scenarioPlayer with
        pass_completion := some (JSNum.ofDecimal false 815 1) }).cells.getD 4 "" = "81.5%" := by
  have h := (pass_completion_cell
    { scenarioPlayer with pass_completion := some (JSNum.ofDecimal false 815 1) }
    (by
      intro v hv
      cases hv
      exact ⟨by decide, by decide⟩)).1
    (JSNum.ofDecimal false 815 1) rfl
    (by
      intro e he
      have hz : (JSNum.ofDecimal false 815 1).isZero = true := by rw [he]; rfl
      revert hz
      decide)
  rw [h]
  decide

/-- Refutation of C9 as stated: a present jersey number 0 and a present
empty name both show the default "-" instead of the value. -/
theorem text_cells_counterexample :
    (playerRow { scenarioPlayer with jersey := some (JSNum.ofInt 0) }).cells.getD 0 "" = "-"
    ∧ (JSNum.ofInt 0).toStr = "0"
    ∧ (playerRow { scenarioPlayer with jersey := some (JSNum.ofInt 0) }).cells.getD 0 ""
        ≠ (JSNum.ofInt 0).toStr
    ∧ (playerRow { scenarioPlayer with player_name := some "" }).cells.getD 1 "" = "-"
    ∧ (playerRow { scenarioPlayer with player_name := some "" }).cells.getD 1 "" ≠ "" := by
  decide

/-- C9 (amended): for every player, the jersey cell shows the jersey
number as it is whenever it is present and not zero (in particular for every
non-zero integer), and the name and position cells show the field as it is
whenever it is present and not empty; each of the three cells shows the
literal "-" when its field is absent, zero or empty. -/
theorem text_cells (p : PlayerStat) :
    (∀ j : JSNum, p.jersey = some j → j.truthy = true →
        (playerRow p).cells.getD 0 "" = j.toStr)
    ∧ (∀ n : Int, n ≠ 0 → p.jersey = some (JSNum.ofInt n) →
        (playerRow p).cells.getD 0 "" = (JSNum.ofInt n).toStr)
    ∧ ((p.jersey = none ∨ ∃ e : Int, p.jersey = some (JSNum.fin 0 e)) →
        (playerRow p).cells.getD 0 "" = "-")
    ∧ (∀ t : String, p.player_name = some t → t ≠ "" → (playerRow p).cells.getD 1 "" = t)
    ∧ ((p.player_name = none ∨ p.player_name = some "") → (playerRow p).cells.getD 1 "" = "-")
    ∧ (∀ t : String, p.position = some t → t ≠ "" → (playerRow p).cells.getD 2 "" = t)
    ∧ ((p.position = none ∨ p.position = some "") → (playerRow p).cells.getD 2 "" = "-") := by
  have h0 : (playerRow p).cells.getD 0 "" = jerseyCell p.jersey := rfl
  have h1 : (playerRow p).cells.getD 1 "" = textCell p.player_name := rfl
  have h2 : (playerRow p).cells.getD 2 "" = textCell p.position := rfl
  rw [h0, h1, h2]
  refine ⟨?_, ?_, ?_, ?_, ?_, ?_, ?_⟩
  · intro j hj ht
    simp [jerseyCell, hj, truthyNum, numOrUndefined, ht]
  · intro n hn hj
    simp [jerseyCell, hj, truthyNum, numOrUndefined, JSNum.ofInt, JSNum.truthy, hn]
  · rintro (h | ⟨e, h⟩) <;> simp [jerseyCell, h, truthyNum, JSNum.truthy]
  · intro t ht hne
    simp [textCell, ht, truthyStr, strOrUndefined, hne]
  · rintro (h | h) <;> simp [textCell, h, truthyStr]
  · intro t ht hne
    simp [textCell, ht, truthyStr, strOrUndefined, hne]
  · rintro (h | h) <;> simp [textCell, h, truthyStr]

/-- Witness of C9 (amended) at the scenario player: jersey 9, name "X",
position "FW"; and at the same player without a jersey. -/
theorem text_cells_witness :
    (playerRow scenarioPlayer).cells.getD 0 "" = "9"
    ∧ (playerRow scenarioPlayer).cells.getD 1 "" = "X"
    ∧ (playerRow scenarioPlayer).cells.getD 2 "" = "FW"
    ∧ (playerRow { scenarioPlayer with jersey := none }).cells.getD 0 "" = "-" := by
  obtain ⟨_, hj, _, hn, _, hp, _⟩ := text_cells scenarioPlayer
  obtain ⟨_, _, hnone, _⟩ := text_cells { scenarioPlayer with jersey := none }
  refine ⟨(hj 9 (by decide) rfl).trans (by decide), hn "X" rfl (by decide),
    hp "FW" rfl (by decide), hnone (Or.inl rfl)⟩

/-! ### Failing actions -/

/-- A failing analysis leaves of `analyzeMatchFile` only its `catch`: the
page changes in `matchData` (when a body was parsed), in the loading
indicator and in the log, which gains the request, a console message and
one alert. -/
theorem analyzeMatchFile_of_fails (matchFile : String) (playerName : Option String)
    (r : FetchResult Payload) (s : Page) (h : analysisFails r = true) :
    ∃ (stored : Option Payload) (req : Request) (msg : String),
      analyzeMatchFile matchFile playerName r s =
        { s with
          matchData := stored
          loadingHidden := true
          log := s.log ++
            [ Event.fetch req, Event.consoleError "Error fetching analysis:" msg
            , Event.alert ("Error analyzing match: " ++ msg) ] }
      ∧ (noBody r = true → stored = s.matchData) := by
  cases r with
  | rejected m =>
    exact ⟨s.matchData, Request.analyze matchFile (if truthyStr playerName then playerName else none),
      m, by simp [analyzeMatchFile, analyzeCatch, Page.emit], fun _ => rfl⟩
  | notOk code =>
    exact ⟨s.matchData, Request.analyze matchFile (if truthyStr playerName then playerName else none),
      "Server error: " ++ toString code,
      by simp [analyzeMatchFile, analyzeCatch, Page.emit], fun _ => rfl⟩
  | badJson m =>
    exact ⟨s.matchData, Request.analyze matchFile (if truthyStr playerName then playerName else none),
      m, by simp [analyzeMatchFile, analyzeCatch, Page.emit], fun _ => rfl⟩
  | json body =>
    have hb : truthyStr body.error = true := h
    refine ⟨some body,
      Request.analyze matchFile (if truthyStr playerName then playerName else none),
      strOrUndefined body.error, ?_, fun hn => ?_⟩
    · simp [analyzeMatchFile, analyzeCatch, Page.emit, hb]
    · simp [noBody] at hn

/-- Refutation of C4 as stated: on a page that shows the scenario match
(results pane visible, `matchData` the scenario payload), `analyzeMatch`
with an error response is a failing action, yet afterwards the results pane
is hidden and `matchData` is the error body; with a transport failure
(status 500) the results pane is hidden as well. -/
theorem failure_display_counterexample :
    (UserAction.analyzeMatch (.json (errorBody "boom"))).fails
        { blankPage with resultsHidden := false, matchData := some scenario } = true
    ∧ ({ blankPage with resultsHidden := false, matchData := some scenario } : Page).resultsHidden
        = false
    ∧ (analyzeMatch (.json (errorBody "boom"))
        { blankPage with resultsHidden := false, matchData := some scenario }).resultsHidden = true
    ∧ (analyzeMatch (.json (errorBody "boom"))
        { blankPage with resultsHidden := false, matchData := some scenario }).matchData
        = some (errorBody "boom")
    ∧ (analyzeMatch (.json (errorBody "boom"))
        { blankPage with resultsHidden := false, matchData := some scenario }).matchData
        ≠ some scenario
    ∧ (UserAction.analyzeMatch (.notOk 500)).fails
        { blankPage with resultsHidden := false, matchData := some scenario } = true
    ∧ (analyzeMatch (.notOk 500)
        { blankPage with resultsHidden := false, matchData := some scenario }).resultsHidden
        = true := by
  decide

/-- Function `loadAvailableFiles` only touches the match list, the analyze
button and the log, and shows no alert. -/
theorem loadAvailableFiles_frame (ls : FetchResult FileList) (s : Page) :
    ∃ pre : List Event,
      loadAvailableFiles ls s =
        { s with
          matchSelector := (loadAvailableFiles ls s).matchSelector
          analyzeBtnDisabled := (loadAvailableFiles ls s).analyzeBtnDisabled
          log := s.log ++ pre }
      ∧ ∀ m, Event.alert m ∉ pre := by
  cases ls with
  | rejected m =>
    exact ⟨[Event.fetch Request.listFiles, Event.consoleError "Error loading available files:" m],
      by simp [loadAvailableFiles, Page.emit], by simp⟩
  | notOk code =>
    exact ⟨[Event.fetch Request.listFiles,
        Event.consoleError "Error loading available files:" ("Server error: " ++ toString code)],
      by simp [loadAvailableFiles, Page.emit], by simp⟩
  | badJson m =>
    exact ⟨[Event.fetch Request.listFiles, Event.consoleError "Error loading available files:" m],
      by simp [loadAvailableFiles, Page.emit], by simp⟩
  | json data =>
    cases hf : data.files with
    | none =>
      exact ⟨[Event.fetch Request.listFiles], by simp [loadAvailableFiles, Page.emit, hf], by simp⟩
    | some files =>
      cases files with
      | nil =>
        exact ⟨[Event.fetch Request.listFiles], by simp [loadAvailableFiles, Page.emit, hf],
          by simp⟩
      | cons f fs =>
        exact ⟨[Event.fetch Request.listFiles], by simp [loadAvailableFiles, Page.emit, hf],
          by simp⟩

/-- C4 (amended): for every page and every user action (`analyzeMatch`,
`handleFileUpload` with a file, `handlePlayerSelection`) whose upload or
analysis request fails or is answered with a non-empty `error`: every
rendered text, bar, table and image slot and the player selector are the
same as before the action; the loading indicator ends hidden; exactly one
alert is shown, as the last effect; the results pane ends hidden after
`analyzeMatch` and `handleFileUpload` and keeps its visibility after
`handlePlayerSelection`; and `matchData` is the same as before when the
failure happens before an analysis body is parsed. -/
theorem failure_preserves_display (a : UserAction) (s : Page) (h : a.fails s = true) :
    (a.run s).display = s.display
    ∧ (a.run s).loadingHidden = true
    ∧ (∃ (pre : List Event) (msg : String),
        (a.run s).log = s.log ++ pre ++ [Event.alert msg] ∧ ∀ m, Event.alert m ∉ pre)
    ∧ (a.hidesResults = true → (a.run s).resultsHidden = true)
    ∧ (a.hidesResults = false → (a.run s).resultsHidden = s.resultsHidden)
    ∧ (a.failsWithoutBody = true → (a.run s).matchData = s.matchData) := by
  cases a with
  | analyzeMatch r =>
    have hr : analysisFails r = true := h
    obtain ⟨stored, req, msg, heq, hst⟩ := analyzeMatchFile_of_fails
      (selectValue s.matchSelector) none r
      { s with loadingHidden := false, resultsHidden := true, selectedPlayer := none } hr
    have hrun : (UserAction.analyzeMatch r).run s = _ := heq
    rw [hrun]
    refine ⟨rfl, rfl, ⟨[Event.fetch req, Event.consoleError "Error fetching analysis:" msg],
      "Error analyzing match: " ++ msg, by simp, by simp⟩, fun _ => rfl, ?_, ?_⟩
    · intro hh
      simp [UserAction.hidesResults] at hh
    · intro hb
      exact hst hb
  | handlePlayerSelection playerName r =>
    simp only [UserAction.fails, Bool.and_eq_true, decide_eq_true_eq] at h
    obtain ⟨⟨hname, hdata⟩, hr⟩ := h
    obtain ⟨stored, req, msg, heq, hst⟩ := analyzeMatchFile_of_fails
      (selectValue s.matchSelector) (some playerName) r
      { s with selectedPlayer := some playerName, loadingHidden := false } hr
    have hrun : (UserAction.handlePlayerSelection playerName r).run s =
        { analyzeMatchFile (selectValue s.matchSelector) (some playerName) r
            { s with selectedPlayer := some playerName, loadingHidden := false }
          with loadingHidden := true } := by
      simp [UserAction.run, handlePlayerSelection, hname, hdata]
    rw [hrun, heq]
    refine ⟨rfl, rfl, ⟨[Event.fetch req, Event.consoleError "Error fetching analysis:" msg],
      "Error analyzing match: " ++ msg, by simp, by simp⟩, ?_, fun _ => rfl, ?_⟩
    · intro hh
      simp [UserAction.hidesResults] at hh
    · intro hb
      exact hst hb
  | handleFileUpload file up ls an =>
    have caught : ∀ m : String,
        uploadCatch m
            (Page.emit { s with loadingHidden := false, resultsHidden := true }
              (Event.fetch (Request.upload file))) =
          { s with
            loadingHidden := true, resultsHidden := true
            log := s.log ++ [Event.fetch (Request.upload file),
              Event.consoleError "Error uploading file:" m]
              ++ [Event.alert ("Error uploading file: " ++ m)] } := by
      intro m
      simp [uploadCatch, Page.emit]
    have viaCatch : ∀ m : String,
        (UserAction.handleFileUpload file up ls an).run s =
          uploadCatch m
            (Page.emit { s with loadingHidden := false, resultsHidden := true }
              (Event.fetch (Request.upload file))) →
        uploadFails up = true →
        ((UserAction.handleFileUpload file up ls an).run s).display = s.display
        ∧ ((UserAction.handleFileUpload file up ls an).run s).loadingHidden = true
        ∧ (∃ (pre : List Event) (msg : String),
            ((UserAction.handleFileUpload file up ls an).run s).log
              = s.log ++ pre ++ [Event.alert msg] ∧ ∀ m, Event.alert m ∉ pre)
        ∧ ((UserAction.handleFileUpload file up ls an).hidesResults = true →
            ((UserAction.handleFileUpload file up ls an).run s).resultsHidden = true)
        ∧ ((UserAction.handleFileUpload file up ls an).hidesResults = false →
            ((UserAction.handleFileUpload file up ls an).run s).resultsHidden = s.resultsHidden)
        ∧ ((UserAction.handleFileUpload file up ls an).failsWithoutBody = true →
            ((UserAction.handleFileUpload file up ls an).run s).matchData = s.matchData) := by
      intro m hrun _
      rw [hrun, caught m]
      refine ⟨rfl, rfl, ⟨[Event.fetch (Request.upload file),
        Event.consoleError "Error uploading file:" m], "Error uploading file: " ++ m,
        by simp, by simp⟩, fun _ => rfl, ?_, fun _ => rfl⟩
      intro hh
      simp [UserAction.hidesResults] at hh
    cases up with
    | rejected m => exact viaCatch m rfl rfl
    | notOk code => exact viaCatch ("Server error: " ++ toString code) rfl rfl
    | badJson m => exact viaCatch m rfl rfl
    | json result =>
      by_cases herr : truthyStr result.error = true
      · exact viaCatch (strOrUndefined result.error)
          (by simp [UserAction.run, handleFileUpload, herr]) herr
      · have han : analysisFails an = true := by
          simpa [UserAction.fails, uploadFails, herr] using h
        obtain ⟨pre, hload, hpre⟩ := loadAvailableFiles_frame ls
          (Page.emit { s with loadingHidden := false, resultsHidden := true }
            (Event.fetch (Request.upload file)))
        have hlog : (loadAvailableFiles ls
          (Page.emit { s with loadingHidden := false, resultsHidden := true }
            (Event.fetch (Request.upload file)))).log
            = s.log ++ (Event.fetch (Request.upload file) :: pre) := by
          rw [hload]
          simp [Page.emit]
        have hdisp : (loadAvailableFiles ls
          (Page.emit { s with loadingHidden := false, resultsHidden := true }
            (Event.fetch (Request.upload file)))).display = s.display := by
          rw [hload]
          rfl
        have hmd : (loadAvailableFiles ls
          (Page.emit { s with loadingHidden := false, resultsHidden := true }
            (Event.fetch (Request.upload file)))).matchData = s.matchData := by
          rw [hload]
          rfl
        have hres : (loadAvailableFiles ls
          (Page.emit { s with loadingHidden := false, resultsHidden := true }
            (Event.fetch (Request.upload file)))).resultsHidden = true := by
          rw [hload]
          rfl
        obtain ⟨stored, req, msg, heq, hst⟩ := analyzeMatchFile_of_fails
          (strOrUndefined result.file_path) none an
          (let p := (loadAvailableFiles ls
          (Page.emit { s with loadingHidden := false, resultsHidden := true }
            (Event.fetch (Request.upload file))))
           { p with matchSelector := selectSetValue (strOrUndefined result.file_path) p.matchSelector })
          han
        have hrun : (UserAction.handleFileUpload file (.json result) ls an).run s =
            analyzeMatchFile (strOrUndefined result.file_path) none an
              (let p := (loadAvailableFiles ls
          (Page.emit { s with loadingHidden := false, resultsHidden := true }
            (Event.fetch (Request.upload file))))
               { p with
                 matchSelector := selectSetValue (strOrUndefined result.file_path) p.matchSelector }) := by
          simp only [UserAction.run, handleFileUpload, herr]
          rfl
        rw [hrun, heq]
        refine ⟨hdisp, rfl, ⟨Event.fetch (Request.upload file) :: pre
          ++ [Event.fetch req, Event.consoleError "Error fetching analysis:" msg],
          "Error analyzing match: " ++ msg, ?_, ?_⟩, fun _ => hres, ?_, ?_⟩
        · show (loadAvailableFiles ls
          (Page.emit { s with loadingHidden := false, resultsHidden := true }
            (Event.fetch (Request.upload file)))).log ++ _ = _
          rw [hlog]
          simp
        · intro m hm
          simp at hm
          exact hpre m hm
        · intro hh
          simp [UserAction.hidesResults] at hh
        · intro hb
          have hnb : noBody an = true := by
            simpa [UserAction.failsWithoutBody, uploadFails, herr] using hb
          show stored = s.matchData
          rw [hst hnb]
          exact hmd

/-- Witness of C4 (amended): on the blank page, an upload that succeeds,
a file list that loads, and an analysis answered with the error "boom". -/
theorem failure_preserves_display_witness :
    (UserAction.handleFileUpload "m.json"
        (.json { error := none, file_path := some "data/m.json" })
        (.json { files := some ["data/m.json"] })
        (.json (errorBody "boom"))).fails blankPage = true
    ∧ ((UserAction.handleFileUpload "m.json"
        (.json { error := none, file_path := some "data/m.json" })
        (.json { files := some ["data/m.json"] })
        (.json (errorBody "boom"))).run blankPage).display = blankPage.display
    ∧ ((UserAction.handleFileUpload "m.json"
        (.json { error := none, file_path := some "data/m.json" })
        (.json { files := some ["data/m.json"] })
        (.json (errorBody "boom"))).run blankPage).loadingHidden = true :=
  ⟨by decide,
    (failure_preserves_display
      (UserAction.handleFileUpload "m.json"
        (.json { error := none, file_path := some "data/m.json" })
        (.json { files := some ["data/m.json"] })
        (.json (errorBody "boom"))) blankPage (by decide)).1,
    (failure_preserves_display
      (UserAction.handleFileUpload "m.json"
        (.json { error := none, file_path := some "data/m.json" })
        (.json { files := some ["data/m.json"] })
        (.json (errorBody "boom"))) blankPage (by decide)).2.1⟩

end MatchViewer
